import Mathlib

/-!
Shallow embedding of the `logic-directional-movement` component from
`src/js/standard-components/logic-directional-movement.js`, together with
proofs of the specification claims about it.

Numbers that are JavaScript floating-point in the source are modelled as
rationals; all the constants that appear in the source (0.3, 1.414, tick
deltas) are exactly representable, so rational arithmetic agrees with the
source on every concrete scenario considered here.

Optional message payloads carrying an optional boolean `pressed` field are
modelled as `Option (Option Bool)`: `none` is "no payload", `some none` is
"a payload object whose pressed field is absent (undefined)", and
`some (some b)` is "a payload with boolean pressed = b".  JavaScript
truthiness of the `pressed` read is `jsTruthy`.
-/

/-- The last-broadcast snapshot `this.state` of the component:
`{moving, left, right, up, down}` (field order as initialised in the
source constructor). -/
structure StateSnapshot where
  moving : Bool
  left : Bool
  right : Bool
  up : Bool
  down : Bool
deriving DecidableEq, Repr

/-- The eight-direction identifiers behind the sixteen directional message
names (`processDirection('down')` etc. in the source). -/
inductive Direction where
  | up | down | left | right | upLeft | upRight | downLeft | downRight
deriving DecidableEq, Repr

/-- The component instance state: `speed`, the eight raw intent flags, the
`moving` boolean and the `state` snapshot, exactly the fields the source
constructor initialises. -/
structure Component where
  speed : ℚ
  moving : Bool
  left : Bool
  right : Bool
  up : Bool
  down : Bool
  upLeft : Bool
  upRight : Bool
  downLeft : Bool
  downRight : Bool
  state : StateSnapshot
deriving DecidableEq, Repr

/-- The owning entity's mutable world position. -/
structure Owner where
  x : ℚ
  y : ℚ
deriving DecidableEq, Repr

/-- Creation-time configuration object; `speed` is `none` when the
`speed` field is absent/undefined/null in the JSON definition. -/
structure Definition where
  speed : Option ℚ
deriving DecidableEq, Repr

/-- JavaScript truthiness of an optional-boolean field read: `undefined`
(missing) and `false` are falsy, `true` is truthy. -/
def jsTruthy : Option Bool → Bool
  | none => false
  | some b => b

/-- JavaScript `definition.speed || .3`: a falsy configured speed
(absent/undefined/null modelled by `none`, and the number 0) yields the
default 0.3. -/
def speedOrDefault : Option ℚ → ℚ
  | none => 0.3
  | some s => if s = 0 then 0.3 else s

/-- The component constructor: sets `speed` from the definition and
initialises `moving`, the eight intent flags and the `state` snapshot all
to false. -/
def mkComponent (defn : Definition) : Component :=
  { speed := speedOrDefault defn.speed
    moving := false
    left := false
    right := false
    up := false
    down := false
    upLeft := false
    upRight := false
    downLeft := false
    downRight := false
    state := { moving := false, left := false, right := false, up := false, down := false } }

/-- Read one raw intent flag (`this[direction]`). -/
def getDir (c : Component) : Direction → Bool
  | .up => c.up
  | .down => c.down
  | .left => c.left
  | .right => c.right
  | .upLeft => c.upLeft
  | .upRight => c.upRight
  | .downLeft => c.downLeft
  | .downRight => c.downRight

/-- Write one raw intent flag (`this[direction] = b`). -/
def setDir (c : Component) (d : Direction) (b : Bool) : Component :=
  match d with
  | .up => { c with up := b }
  | .down => { c with down := b }
  | .left => { c with left := b }
  | .right => { c with right := b }
  | .upLeft => { c with upLeft := b }
  | .upRight => { c with upRight := b }
  | .downLeft => { c with downLeft := b }
  | .downRight => { c with downRight := b }

/-- The shared directional handler `processDirection(direction)` from the
source: with a payload, the flag becomes the truthiness of
`state.pressed`; with no payload the flag is set to true. -/
def processDirection (d : Direction) (payload : Option (Option Bool)) (c : Component) :
    Component :=
  match payload with
  | some p => if jsTruthy p then setDir c d true else setDir c d false
  | none => setDir c d true

/-- Clear all eight intent flags (body of the `stop` handler's guarded
block). -/
def clearFlags (c : Component) : Component :=
  { c with down := false, downLeft := false, left := false, upLeft := false,
           up := false, upRight := false, right := false, downRight := false }

/-- The `stop` handler: `if(!state || state.pressed)` clear all eight
flags, otherwise do nothing. -/
def procStop (payload : Option (Option Bool)) (c : Component) : Component :=
  match payload with
  | none => clearFlags c
  | some p => if jsTruthy p then clearFlags c else c

/-- Derived cardinal `up` from the tick handler:
`this.up || this.upLeft || this.downLeft` (note the asymmetric use of
downLeft in the source). -/
def dUp (c : Component) : Bool := c.up || c.upLeft || c.downLeft

/-- Derived diagonal `upLeft`: `this.upLeft || (this.up && this.left)`. -/
def dUpLeft (c : Component) : Bool := c.upLeft || (c.up && c.left)

/-- Derived cardinal `left`: `this.left || this.upLeft || this.downLeft`. -/
def dLeft (c : Component) : Bool := c.left || c.upLeft || c.downLeft

/-- Derived diagonal `downLeft`: `this.downLeft || (this.down && this.left)`. -/
def dDownLeft (c : Component) : Bool := c.downLeft || (c.down && c.left)

/-- Derived cardinal `down`: `this.down || this.downLeft || this.downRight`. -/
def dDown (c : Component) : Bool := c.down || c.downLeft || c.downRight

/-- Derived diagonal `downRight`: `this.downRight || (this.down && this.right)`. -/
def dDownRight (c : Component) : Bool := c.downRight || (c.down && c.right)

/-- Derived cardinal `right`: `this.right || this.upRight || this.downRight`. -/
def dRight (c : Component) : Bool := c.right || c.upRight || c.downRight

/-- Derived diagonal `upRight`: `this.upRight || (this.up && this.right)`. -/
def dUpRight (c : Component) : Bool := c.upRight || (c.up && c.right)

/-- The velocity-selection chain of the tick handler: returns
`(vX, vY, moving)`.  Branch order and conditions follow the source's
if/else chain; the diagonal branches divide `speed` by the literal
`1.414`. -/
def resolveVelocity (c : Component) : ℚ × ℚ × Bool :=
  if c.up && c.down then (0, 0, false)
  else if c.left && c.right then (0, 0, false)
  else if dUpLeft c then (-c.speed / 1.414, -c.speed / 1.414, true)
  else if dUpRight c then (c.speed / 1.414, -c.speed / 1.414, true)
  else if dDownLeft c then (-c.speed / 1.414, c.speed / 1.414, true)
  else if dDownRight c then (c.speed / 1.414, c.speed / 1.414, true)
  else if c.left then (-c.speed, 0, true)
  else if c.right then (c.speed, 0, true)
  else if c.up then (0, -c.speed, true)
  else if c.down then (0, c.speed, true)
  else (0, 0, false)

/-- The snapshot the tick handler writes into `this.state`: new `moving`
plus the four derived cardinals. -/
def newSnapshot (c : Component) : StateSnapshot :=
  { moving := (resolveVelocity c).2.2
    left := dLeft c
    right := dRight c
    up := dUp c
    down := dDown c }

/-- The `stateChanged` flag of the tick handler: true when any of the
five compared fields differs from the stored snapshot (comparison order
as in the source: moving, up, right, down, left). -/
def stateChanged (c : Component) : Bool :=
  (c.state.moving != (resolveVelocity c).2.2) || (c.state.up != dUp c) ||
    (c.state.right != dRight c) || (c.state.down != dDown c) ||
    (c.state.left != dLeft c)

/-- A notification triggered on the owner: message name and the snapshot
payload. -/
abbrev Emit := String × StateSnapshot

/-- The `handle-logic` tick handler: resolves the velocity, adds
`v * deltaT` to the owner position, stores the new `moving` and `state`,
and triggers `logical-state` carrying `this.state` exactly when
`stateChanged`. -/
def handleLogic (c : Component) (o : Owner) (deltaT : ℚ) : Component × Owner × List Emit :=
  ({ c with moving := (resolveVelocity c).2.2, state := newSnapshot c },
   { x := o.x + (resolveVelocity c).1 * deltaT, y := o.y + (resolveVelocity c).2.1 * deltaT },
   if stateChanged c then [("logical-state", newSnapshot c)] else [])

/-- Map each of the sixteen directional message names to its direction
(the `proto['go-...'] = processDirection('...')` table). -/
def msgDirection : String → Option Direction
  | "go-down" => some .down
  | "go-south" => some .down
  | "go-down-left" => some .downLeft
  | "go-southwest" => some .downLeft
  | "go-left" => some .left
  | "go-west" => some .left
  | "go-up-left" => some .upLeft
  | "go-northwest" => some .upLeft
  | "go-up" => some .up
  | "go-north" => some .up
  | "go-up-right" => some .upRight
  | "go-northeast" => some .upRight
  | "go-right" => some .right
  | "go-east" => some .right
  | "go-down-right" => some .downRight
  | "go-southeast" => some .downRight
  | _ => none

/-- The messages this component listens for. -/
inductive Msg where
  | dir (name : String) (payload : Option (Option Bool))
  | stop (payload : Option (Option Bool))
  | tick (deltaT : ℚ)

/-- Dispatch one incoming message to its handler; returns the updated
component, owner, and the notifications triggered on the owner. -/
def step (c : Component) (o : Owner) : Msg → Component × Owner × List Emit
  | .dir name payload =>
    match msgDirection name with
    | some d => (processDirection d payload c, o, [])
    | none => (c, o, [])
  | .stop payload => (procStop payload c, o, [])
  | .tick deltaT => handleLogic c o deltaT

/-- Run a sequence of messages, accumulating all triggered notifications. -/
def run (c : Component) (o : Owner) : List Msg → Component × Owner × List Emit
  | [] => (c, o, [])
  | m :: ms =>
    let r1 := step c o m
    let r2 := run r1.1 r1.2.1 ms
    (r2.1, r2.2.1, r1.2.2 ++ r2.2.2)

/-- A freshly constructed component with no configured speed (speed 0.3,
all flags false). -/
def c0 : Component := mkComponent { speed := none }

/-- An owner at the origin. -/
def o0 : Owner := ⟨0, 0⟩

/-- The fresh component after a `go-up` press. -/
def cUp : Component := { c0 with up := true }

/-- The fresh component after a `go-down` press. -/
def cDown : Component := { c0 with down := true }

/-- A component with the opposing cardinals up and down both held (and
left also held, to exercise the suppression of other flags). -/
def cUD : Component := { c0 with up := true, down := true, left := true }

/-- A component with speed 1 and only the upLeft diagonal flag held. -/
def cUL : Component := { c0 with upLeft := true, speed := 1 }

/-- C1: when both opposing cardinal intent flags are true (up and down, or
left and right), one tick resolves velocity (0,0), sets moving to false,
and leaves the owner position unchanged for any deltaT, regardless of the
other flags. -/
theorem opposing_cardinals_cancel (c : Component) (o : Owner) (dt : ℚ)
    (h : (c.up && c.down) = true ∨ (c.left && c.right) = true) :
    resolveVelocity c = (0, 0, false) ∧ (handleLogic c o dt).1.moving = false ∧
      (handleLogic c o dt).2.1 = o := by
  have hv : resolveVelocity c = (0, 0, false) := by
    rcases h with h | h
    · simp [resolveVelocity, h]
    · cases hud : (c.up && c.down) <;> simp [resolveVelocity, hud, h]
  refine ⟨hv, ?_, ?_⟩
  · simp [handleLogic, hv]
  · obtain ⟨x, y⟩ := o
    simp [handleLogic, hv]

/-- C1 witness: the cancellation at a concrete component with up, down and
left all held, ticked with deltaT = 5. -/
theorem opposing_cardinals_cancel_witness :
    resolveVelocity cUD = (0, 0, false) ∧ (handleLogic cUD o0 5).1.moving = false ∧
      (handleLogic cUD o0 5).2.1 = o0 :=
  opposing_cardinals_cancel cUD o0 5 (Or.inl rfl)

/-- C2 counterexample: the go-down handler invoked with a payload object
that lacks a pressed field sets the down flag to false (the claim says it
would be set to true), even when it was previously true. -/
theorem direction_missing_pressed_cex :
    (step cDown o0 (Msg.dir "go-down" (some none))).1.down = false := rfl

/-- C2 amended: each of the sixteen directional message names maps to its
intent flag; a handler invoked with no payload sets the flag to true, with
a payload lacking pressed sets it to false, and with a boolean pressed
sets it to that value. -/
theorem direction_handlers_set_flags :
    (msgDirection "go-down" = some Direction.down ∧
      msgDirection "go-south" = some Direction.down ∧
      msgDirection "go-down-left" = some Direction.downLeft ∧
      msgDirection "go-southwest" = some Direction.downLeft ∧
      msgDirection "go-left" = some Direction.left ∧
      msgDirection "go-west" = some Direction.left ∧
      msgDirection "go-up-left" = some Direction.upLeft ∧
      msgDirection "go-northwest" = some Direction.upLeft ∧
      msgDirection "go-up" = some Direction.up ∧
      msgDirection "go-north" = some Direction.up ∧
      msgDirection "go-up-right" = some Direction.upRight ∧
      msgDirection "go-northeast" = some Direction.upRight ∧
      msgDirection "go-right" = some Direction.right ∧
      msgDirection "go-east" = some Direction.right ∧
      msgDirection "go-down-right" = some Direction.downRight ∧
      msgDirection "go-southeast" = some Direction.downRight) ∧
    (∀ (d : Direction) (c : Component), getDir (processDirection d none c) d = true) ∧
    (∀ (d : Direction) (c : Component), getDir (processDirection d (some none) c) d = false) ∧
    (∀ (d : Direction) (c : Component) (b : Bool),
      getDir (processDirection d (some (some b)) c) d = b) := by
  refine ⟨⟨rfl, rfl, rfl, rfl, rfl, rfl, rfl, rfl, rfl, rfl, rfl, rfl, rfl, rfl, rfl, rfl⟩,
    ?_, ?_, ?_⟩
  · intro d c; cases d <;> rfl
  · intro d c; cases d <;> rfl
  · intro d c b; cases d <;> cases b <;> rfl

/-- C3: the stop handler with no payload or with pressed = true clears all
eight intent flags; with pressed = false it leaves the component
unchanged. -/
theorem stop_handler_behavior (c : Component) (o : Owner) :
    (step c o (Msg.stop none)).1 = clearFlags c ∧
    (step c o (Msg.stop (some (some true)))).1 = clearFlags c ∧
    (step c o (Msg.stop (some (some false)))).1 = c ∧
    (clearFlags c).up = false ∧ (clearFlags c).down = false ∧
    (clearFlags c).left = false ∧ (clearFlags c).right = false ∧
    (clearFlags c).upLeft = false ∧ (clearFlags c).upRight = false ∧
    (clearFlags c).downLeft = false ∧ (clearFlags c).downRight = false :=
  ⟨rfl, rfl, rfl, rfl, rfl, rfl, rfl, rfl, rfl, rfl, rfl⟩

/-- C8: every tick adds velocity times deltaT to the owner position,
unconditionally, and mutates only moving and the stored snapshot on the
component: the eight raw intent flags and the speed are unchanged. -/
theorem tick_frame_effect (c : Component) (o : Owner) (dt : ℚ) :
    (handleLogic c o dt).2.1.x = o.x + (resolveVelocity c).1 * dt ∧
    (handleLogic c o dt).2.1.y = o.y + (resolveVelocity c).2.1 * dt ∧
    (handleLogic c o dt).1.up = c.up ∧ (handleLogic c o dt).1.down = c.down ∧
    (handleLogic c o dt).1.left = c.left ∧ (handleLogic c o dt).1.right = c.right ∧
    (handleLogic c o dt).1.upLeft = c.upLeft ∧
    (handleLogic c o dt).1.upRight = c.upRight ∧
    (handleLogic c o dt).1.downLeft = c.downLeft ∧
    (handleLogic c o dt).1.downRight = c.downRight ∧
    (handleLogic c o dt).1.speed = c.speed ∧
    (handleLogic c o dt).1.moving = (resolveVelocity c).2.2 ∧
    (handleLogic c o dt).1.state = newSnapshot c :=
  ⟨rfl, rfl, rfl, rfl, rfl, rfl, rfl, rfl, rfl, rfl, rfl, rfl, rfl⟩

/-- C10: a falsy configured speed (absent or zero) is replaced by the
default 0.3, so the constructed component never has speed zero; a nonzero
configured speed is kept. -/
theorem speed_default_on_falsy (d : Definition) :
    (d.speed = none → (mkComponent d).speed = 0.3) ∧
    (d.speed = some 0 → (mkComponent d).speed = 0.3) ∧
    (mkComponent d).speed ≠ 0 ∧
    (∀ s : ℚ, d.speed = some s → s ≠ 0 → (mkComponent d).speed = s) := by
  obtain ⟨sp⟩ := d
  cases sp with
  | none =>
    refine ⟨fun _ => rfl, by simp, by norm_num [mkComponent, speedOrDefault], ?_⟩
    intro s hs
    simp at hs
  | some q =>
    refine ⟨by simp, ?_, ?_, ?_⟩
    · intro hq
      simp only [Option.some.injEq] at hq
      simp [mkComponent, speedOrDefault, hq]
    · by_cases hq : q = 0
      · simp [mkComponent, speedOrDefault, hq]
        norm_num
      · simp [mkComponent, speedOrDefault, hq]
    · intro s hs hns
      simp only [Option.some.injEq] at hs
      subst hs
      simp [mkComponent, speedOrDefault, hns]

/-- C10 witness: a configured speed of exactly 0 is replaced by the
default 0.3. -/
theorem speed_default_on_falsy_witness :
    (mkComponent { speed := some 0 }).speed = 0.3 :=
  (speed_default_on_falsy { speed := some 0 }).2.1 rfl

/-- C4 counterexample: with speed 1 and only the upLeft flag held, the
resolved x-velocity has magnitude strictly greater than speed divided by
the square root of two (the code divides by the literal 1.414 instead),
so the velocity components do not have magnitude exactly speed/sqrt 2 as
the claim states. -/
theorem diagonal_speed_sqrt2_cex :
    (1 : ℝ) / Real.sqrt 2 < |((resolveVelocity cUL).1 : ℝ)| := by
  have hval : (resolveVelocity cUL).1 = (-(500/707) : ℚ) := by
    simp only [resolveVelocity, cUL, c0, mkComponent, speedOrDefault, dUpLeft, dUpRight,
      dDownLeft, dDownRight]
    norm_num
  rw [hval]
  have hs : (707/500 : ℝ) < Real.sqrt 2 := by
    nlinarith [Real.sq_sqrt (show (0:ℝ) ≤ 2 by norm_num), Real.sqrt_nonneg 2]
  have h2 : (1 : ℝ) / Real.sqrt 2 < 1 / (707/500 : ℝ) :=
    one_div_lt_one_div_of_lt (by norm_num) hs
  calc (1 : ℝ) / Real.sqrt 2 < 1 / (707/500 : ℝ) := h2
    _ = |((-(500/707) : ℚ) : ℝ)| := by push_cast; rw [abs_neg, abs_of_nonneg] <;> norm_num

/-- C4 amended: with a diagonal active and no opposing-cardinal pair, the
velocity components each have magnitude exactly speed/1.414, moving is
set, and the signs follow the highest-priority active diagonal in the
order upLeft, upRight, downLeft, downRight. -/
theorem diagonal_velocity_components (c : Component)
    (hd : (dUpLeft c || dUpRight c || dDownLeft c || dDownRight c) = true)
    (h1 : (c.up && c.down) = false) (h2 : (c.left && c.right) = false)
    (hs : 0 ≤ c.speed) :
    |(resolveVelocity c).1| = c.speed / 1.414 ∧
    |(resolveVelocity c).2.1| = c.speed / 1.414 ∧
    (resolveVelocity c).2.2 = true ∧
    (dUpLeft c = true →
      resolveVelocity c = (-c.speed / 1.414, -c.speed / 1.414, true)) ∧
    (dUpLeft c = false → dUpRight c = true →
      resolveVelocity c = (c.speed / 1.414, -c.speed / 1.414, true)) ∧
    (dUpLeft c = false → dUpRight c = false → dDownLeft c = true →
      resolveVelocity c = (-c.speed / 1.414, c.speed / 1.414, true)) ∧
    (dUpLeft c = false → dUpRight c = false → dDownLeft c = false → dDownRight c = true →
      resolveVelocity c = (c.speed / 1.414, c.speed / 1.414, true)) := by
  have hnn : (0:ℚ) ≤ c.speed / 1.414 := div_nonneg hs (by norm_num)
  have h1' : ¬((c.up && c.down) = true) := by simp [h1]
  have h2' : ¬((c.left && c.right) = true) := by simp [h2]
  have hv : resolveVelocity c =
      if dUpLeft c then (-c.speed / 1.414, -c.speed / 1.414, true)
      else if dUpRight c then (c.speed / 1.414, -c.speed / 1.414, true)
      else if dDownLeft c then (-c.speed / 1.414, c.speed / 1.414, true)
      else if dDownRight c then (c.speed / 1.414, c.speed / 1.414, true)
      else if c.left then (-c.speed, 0, true)
      else if c.right then (c.speed, 0, true)
      else if c.up then (0, -c.speed, true)
      else if c.down then (0, c.speed, true)
      else (0, 0, false) := by
    unfold resolveVelocity
    rw [if_neg h1', if_neg h2']
  rw [hv]
  cases hul : dUpLeft c <;> cases hur : dUpRight c <;> cases hdl : dDownLeft c <;>
    cases hdr : dDownRight c <;>
      simp_all [abs_neg, abs_of_nonneg hnn, neg_div]

/-- C4 witness: the amended diagonal behaviour at the concrete component
with speed 1 and upLeft held. -/
theorem diagonal_velocity_components_witness :
    |(resolveVelocity cUL).1| = cUL.speed / 1.414 ∧
    |(resolveVelocity cUL).2.1| = cUL.speed / 1.414 ∧
    (resolveVelocity cUL).2.2 = true ∧
    (dUpLeft cUL = true →
      resolveVelocity cUL = (-cUL.speed / 1.414, -cUL.speed / 1.414, true)) ∧
    (dUpLeft cUL = false → dUpRight cUL = true →
      resolveVelocity cUL = (cUL.speed / 1.414, -cUL.speed / 1.414, true)) ∧
    (dUpLeft cUL = false → dUpRight cUL = false → dDownLeft cUL = true →
      resolveVelocity cUL = (-cUL.speed / 1.414, cUL.speed / 1.414, true)) ∧
    (dUpLeft cUL = false → dUpRight cUL = false → dDownLeft cUL = false →
      dDownRight cUL = true →
      resolveVelocity cUL = (cUL.speed / 1.414, cUL.speed / 1.414, true)) :=
  diagonal_velocity_components cUL rfl rfl rfl (by norm_num [cUL])

/-- C5: a single cardinal flag with every other flag false resolves to
velocity of magnitude speed along that axis with moving true; and the
scenario go-up with no payload followed by a tick of deltaT 10 at the
default speed 0.3 moves the owner from (x, y) to (x, y - 3) and emits
exactly one logical-state with moving and up true, all others false. -/
theorem single_cardinal_velocity :
    (∀ c : Component, c.up = true → c.down = false → c.left = false → c.right = false →
      c.upLeft = false → c.upRight = false → c.downLeft = false → c.downRight = false →
      resolveVelocity c = (0, -c.speed, true)) ∧
    (∀ c : Component, c.down = true → c.up = false → c.left = false → c.right = false →
      c.upLeft = false → c.upRight = false → c.downLeft = false → c.downRight = false →
      resolveVelocity c = (0, c.speed, true)) ∧
    (∀ c : Component, c.left = true → c.up = false → c.down = false → c.right = false →
      c.upLeft = false → c.upRight = false → c.downLeft = false → c.downRight = false →
      resolveVelocity c = (-c.speed, 0, true)) ∧
    (∀ c : Component, c.right = true → c.up = false → c.down = false → c.left = false →
      c.upLeft = false → c.upRight = false → c.downLeft = false → c.downRight = false →
      resolveVelocity c = (c.speed, 0, true)) ∧
    (∀ x y : ℚ,
      (run c0 ⟨x, y⟩ [Msg.dir "go-up" none, Msg.tick 10]).2.1 = ⟨x, y - 3⟩ ∧
      (run c0 ⟨x, y⟩ [Msg.dir "go-up" none, Msg.tick 10]).2.2 =
        [("logical-state",
          { moving := true, left := false, right := false, up := true, down := false })]) := by
  refine ⟨?_, ?_, ?_, ?_, ?_⟩
  · intro c h1 h2 h3 h4 h5 h6 h7 h8
    simp [resolveVelocity, dUpLeft, dUpRight, dDownLeft, dDownRight,
      h1, h2, h3, h4, h5, h6, h7, h8]
  · intro c h1 h2 h3 h4 h5 h6 h7 h8
    simp [resolveVelocity, dUpLeft, dUpRight, dDownLeft, dDownRight,
      h1, h2, h3, h4, h5, h6, h7, h8]
  · intro c h1 h2 h3 h4 h5 h6 h7 h8
    simp [resolveVelocity, dUpLeft, dUpRight, dDownLeft, dDownRight,
      h1, h2, h3, h4, h5, h6, h7, h8]
  · intro c h1 h2 h3 h4 h5 h6 h7 h8
    simp [resolveVelocity, dUpLeft, dUpRight, dDownLeft, dDownRight,
      h1, h2, h3, h4, h5, h6, h7, h8]
  · intro x y
    constructor
    · have h : y - 3 = y + -3 := by ring
      rw [h]
      simp [run, step, msgDirection, processDirection, setDir, handleLogic, resolveVelocity,
        newSnapshot, stateChanged, dUp, dDown, dLeft, dRight, dUpLeft, dUpRight,
        dDownLeft, dDownRight, c0, mkComponent, speedOrDefault, jsTruthy]
      norm_num
    · simp [run, step, msgDirection, processDirection, setDir, handleLogic, resolveVelocity,
        newSnapshot, stateChanged, dUp, dDown, dLeft, dRight, dUpLeft, dUpRight,
        dDownLeft, dDownRight, c0, mkComponent, speedOrDefault, jsTruthy]

/-- C5 witness: the single-cardinal rule at the concrete fresh component
after a go-up press. -/
theorem single_cardinal_velocity_witness :
    resolveVelocity cUp = (0, -cUp.speed, true) :=
  single_cardinal_velocity.1 cUp rfl rfl rfl rfl rfl rfl rfl rfl

/-- C6: the derived cardinal booleans follow the source's (asymmetric)
derivation table, the stored snapshot carries exactly these derived
values after a tick, and any logical-state notification carries that
snapshot. -/
theorem derived_state_broadcast (c : Component) (o : Owner) (dt : ℚ) :
    dUp c = (c.up || c.upLeft || c.downLeft) ∧
    dLeft c = (c.left || c.upLeft || c.downLeft) ∧
    dDown c = (c.down || c.downLeft || c.downRight) ∧
    dRight c = (c.right || c.upRight || c.downRight) ∧
    (handleLogic c o dt).1.state.up = dUp c ∧
    (handleLogic c o dt).1.state.left = dLeft c ∧
    (handleLogic c o dt).1.state.down = dDown c ∧
    (handleLogic c o dt).1.state.right = dRight c ∧
    ((handleLogic c o dt).2.2 = [] ∨
      (handleLogic c o dt).2.2 = [("logical-state", (handleLogic c o dt).1.state)]) := by
  refine ⟨rfl, rfl, rfl, rfl, rfl, rfl, rfl, rfl, ?_⟩
  by_cases h : stateChanged c = true
  · right
    simp [handleLogic, h]
  · left
    simp [handleLogic, h]

/-- C7: a tick triggers logical-state exactly when one of the five
compared fields differs from the stored snapshot; and a fresh component
ticked with deltaT 16 leaves the component and position unchanged and
emits nothing. -/
theorem emission_iff_changed :
    (∀ (c : Component) (o : Owner) (dt : ℚ),
      (handleLogic c o dt).2.2 ≠ [] ↔
        (c.state.moving ≠ (resolveVelocity c).2.2 ∨ c.state.up ≠ dUp c ∨
          c.state.right ≠ dRight c ∨ c.state.down ≠ dDown c ∨ c.state.left ≠ dLeft c)) ∧
    (∀ x y : ℚ, handleLogic c0 ⟨x, y⟩ 16 = (c0, ⟨x, y⟩, [])) := by
  constructor
  · intro c o dt
    have hiff : (handleLogic c o dt).2.2 ≠ [] ↔ stateChanged c = true := by
      by_cases h : stateChanged c = true <;> simp [handleLogic, h]
    rw [hiff, stateChanged]
    simp [bne_iff_ne]
    tauto
  · intro x y
    simp [handleLogic, resolveVelocity, newSnapshot, stateChanged, c0, mkComponent,
      speedOrDefault, dUp, dDown, dLeft, dRight, dUpLeft, dUpRight, dDownLeft, dDownRight]

/-- Each single dispatched message triggers no notification other than
logical-state. -/
theorem step_emit_name (c : Component) (o : Owner) (m : Msg) :
    ∀ e ∈ (step c o m).2.2, e.1 = "logical-state" := by
  intro e he
  cases m with
  | dir name payload =>
    cases h : msgDirection name <;> simp [step, h] at he
  | stop payload =>
    simp [step] at he
  | tick dt =>
    by_cases h : stateChanged c = true
    · simp [step, handleLogic, h] at he
      subst he
      rfl
    · simp [step, handleLogic, h] at he

/-- C9: over any sequence of directional, stop and tick messages, the
only notification ever triggered on the owner is logical-state. -/
theorem only_logical_state_emitted (ms : List Msg) :
    ∀ (c : Component) (o : Owner), ∀ e ∈ (run c o ms).2.2, e.1 = "logical-state" := by
  induction ms with
  | nil =>
    intro c o e he
    simp [run] at he
  | cons m ms ih =>
    intro c o e he
    simp only [run] at he
    rw [List.mem_append] at he
    rcases he with h | h
    · exact step_emit_name c o m e h
    · exact ih _ _ e h

/-- C9 witness: the notification actually emitted by a tick after a go-up
press is named logical-state. -/
theorem only_logical_state_emitted_witness :
    (("logical-state",
      ({ moving := true, left := false, right := false, up := true, down := false } :
        StateSnapshot)) : Emit).1 = "logical-state" :=
  only_logical_state_emitted [Msg.tick 1] cUp o0
    ("logical-state", { moving := true, left := false, right := false, up := true, down := false })
    (by simp [run, step, handleLogic, resolveVelocity, newSnapshot, stateChanged, cUp, c0,
      mkComponent, speedOrDefault, dUp, dDown, dLeft, dRight, dUpLeft, dUpRight, dDownLeft,
      dDownRight, jsTruthy])
